import Mathlib

/-!
Verification of the Transcripto pipeline (src/yt_app.py).

The script is embedded shallowly: the URL parser `get_video_id`, the
transcript fetch wrapper `fetch_transcript_text`, the per-run script
semantics `runScript` (Streamlit re-executes the whole script on every
interaction), the session-state record, and the rendering of download
artifacts.  External collaborators (the transcript library and the
completion service) are passed in as oracle functions.
-/

/-- Characters admitted by the regex character class `[0-9A-Za-z_-]`. -/
def isIdChar (c : Char) : Bool :=
  c.isAlpha || c.isDigit || c = '_' || c = '-'

/-- The marker `v=` of the regex alternation. -/
def markerV : List Char := ['v', '=']

/-- The marker `youtu.be/` of the regex alternation. -/
def markerBe : List Char := ['y', 'o', 'u', 't', 'u', '.', 'b', 'e', '/']

/-- The marker `/v/` of the regex alternation. -/
def markerSlashV : List Char := ['/', 'v', '/']

/-- The three markers, in the order the regex tries them. -/
def markers : List (List Char) := [markerV, markerBe, markerSlashV]

/-- Strip `m` from the front of `l`; `none` when `m` is not at the front. -/
def dropPref : List Char → List Char → Option (List Char)
  | [], l => some l
  | _ :: _, [] => none
  | a :: as, b :: bs => if a = b then dropPref as bs else none

/-- `[0-9A-Za-z_-]\x7b11\x7d`: succeed iff the next 11 characters all lie in
the class, capturing exactly those 11. -/
def grab11 (l : List Char) : Option (List Char) :=
  if (l.take 11).length = 11 ∧ (l.take 11).all isIdChar = true then
    some (l.take 11)
  else none

/-- Try the whole regex at one position: one of the three markers followed
by an 11-character class run.  The alternatives are first-character
disjoint, so Python's ordered alternation agrees with `<|>`. -/
def matchMarkers (l : List Char) : Option (List Char) :=
  ((dropPref markerV l).bind grab11) <|>
  ((dropPref markerBe l).bind grab11) <|>
  ((dropPref markerSlashV l).bind grab11)

/-- `re.search`: scan positions left to right, return the first match. -/
def searchVid : List Char → Option (List Char)
  | [] => none
  | c :: cs => matchMarkers (c :: cs) <|> searchVid cs

/-- `get_video_id` from src/yt_app.py:
`re.search(r"(?:v=|youtu\.be\/|\/v\/)([0-9A-Za-z_-]\x7b11\x7d)", url)`,
returning the capture group or `None`. -/
def get_video_id (url : String) : Option String :=
  (searchVid url.data).map String.mk

/-- Does `m` occur as a contiguous substring of the list? -/
def occursInB (m : List Char) : List Char → Bool
  | [] => (dropPref m []).isSome
  | c :: cs => (dropPref m (c :: cs)).isSome || occursInB m cs

/-- An 11-character token over the allowed alphabet. -/
def IsToken (t : List Char) : Prop :=
  t.length = 11 ∧ ∀ c ∈ t, isIdChar c = true

/-- A well-formed 11-character token `t` stands at position `i` of `l`,
immediately preceded by one of the three markers. -/
def MarkerTokenAt (l : List Char) (i : Nat) (t : List Char) : Prop :=
  ∃ m ∈ markers, ∃ pre suf : List Char,
    pre.length = i ∧ l = pre ++ m ++ t ++ suf ∧ IsToken t

/-- A run `r` of allowed characters stands at position `i` of `l`,
immediately preceded by one of the three markers. -/
def MarkerRunAt (l : List Char) (i : Nat) (r : List Char) : Prop :=
  ∃ m ∈ markers, ∃ pre suf : List Char,
    pre.length = i ∧ l = pre ++ m ++ r ++ suf ∧ ∀ c ∈ r, isIdChar c = true

theorem dropPref_eq_some {m l r : List Char} :
    dropPref m l = some r ↔ l = m ++ r := by
  induction m generalizing l with
  | nil =>
    simp [dropPref]
  | cons a as ih =>
    cases l with
    | nil => simp [dropPref]
    | cons b bs =>
      simp only [dropPref, List.cons_append]
      by_cases hab : a = b
      · subst hab
        simp [ih]
      · rw [if_neg hab]
        constructor
        · intro h
          exact absurd h (by simp)
        · intro h
          injection h with h1 _
          exact absurd h1.symm hab

theorem grab11_eq_some {l t : List Char} :
    grab11 l = some t ↔
      t.length = 11 ∧ t.all isIdChar = true ∧ ∃ suf, l = t ++ suf := by
  constructor
  · intro h
    unfold grab11 at h
    split at h
    · rename_i hc
      cases h
      exact ⟨hc.1, hc.2, l.drop 11, (List.take_append_drop 11 l).symm⟩
    · exact absurd h (by simp)
  · rintro ⟨hlen, hall, suf, rfl⟩
    unfold grab11
    rw [List.take_left' hlen, if_pos ⟨hlen, hall⟩]

theorem grab11_append {t suf : List Char} (hlen : t.length = 11)
    (hall : t.all isIdChar = true) : grab11 (t ++ suf) = some t :=
  grab11_eq_some.mpr ⟨hlen, hall, suf, rfl⟩

theorem IsToken_iff {t : List Char} :
    IsToken t ↔ t.length = 11 ∧ t.all isIdChar = true := by
  unfold IsToken
  rw [List.all_eq_true]

theorem matchMarkers_eq_some {l t : List Char} :
    matchMarkers l = some t ↔
      ∃ m ∈ markers, (∃ suf, l = m ++ t ++ suf) ∧ IsToken t := by
  constructor
  · intro h
    unfold matchMarkers at h
    rcases hV : (dropPref markerV l).bind grab11 with _ | tV
    · rw [hV, Option.none_orElse] at h
      rcases hBe : (dropPref markerBe l).bind grab11 with _ | tBe
      · rw [hBe, Option.none_orElse] at h
        rcases hd : dropPref markerSlashV l with _ | rest
        · rw [hd] at h; exact absurd h (by simp [Option.bind])
        · rw [hd] at h
          simp only [Option.bind] at h
          obtain ⟨hlen, hall, suf, hsuf⟩ := grab11_eq_some.mp h
          refine ⟨markerSlashV, by simp [markers], ⟨suf, ?_⟩, IsToken_iff.mpr ⟨hlen, hall⟩⟩
          rw [dropPref_eq_some.mp hd, hsuf, List.append_assoc]
      · rw [hBe, Option.some_orElse] at h
        cases h
        rcases hd : dropPref markerBe l with _ | rest
        · rw [hd] at hBe; exact absurd hBe (by simp [Option.bind])
        · rw [hd] at hBe
          simp only [Option.bind] at hBe
          obtain ⟨hlen, hall, suf, hsuf⟩ := grab11_eq_some.mp hBe
          refine ⟨markerBe, by simp [markers], ⟨suf, ?_⟩, IsToken_iff.mpr ⟨hlen, hall⟩⟩
          rw [dropPref_eq_some.mp hd, hsuf, List.append_assoc]
    · rw [hV, Option.some_orElse] at h
      cases h
      rcases hd : dropPref markerV l with _ | rest
      · rw [hd] at hV; exact absurd hV (by simp [Option.bind])
      · rw [hd] at hV
        simp only [Option.bind] at hV
        obtain ⟨hlen, hall, suf, hsuf⟩ := grab11_eq_some.mp hV
        refine ⟨markerV, by simp [markers], ⟨suf, ?_⟩, IsToken_iff.mpr ⟨hlen, hall⟩⟩
        rw [dropPref_eq_some.mp hd, hsuf, List.append_assoc]
  · rintro ⟨m, hm, ⟨suf, rfl⟩, htok⟩
    obtain ⟨hlen, hall⟩ := IsToken_iff.mp htok
    simp only [markers, List.mem_cons, List.mem_singleton, List.not_mem_nil, or_false] at hm
    rcases hm with rfl | rfl | rfl
    · unfold matchMarkers
      rw [show dropPref markerV (markerV ++ t ++ suf) = some (t ++ suf) from
        dropPref_eq_some.mpr (by rw [List.append_assoc])]
      simp only [Option.bind]
      rw [grab11_append hlen hall]
      rfl
    · unfold matchMarkers
      rw [show dropPref markerV (markerBe ++ t ++ suf) = none from rfl]
      rw [show dropPref markerBe (markerBe ++ t ++ suf) = some (t ++ suf) from
        dropPref_eq_some.mpr (by rw [List.append_assoc])]
      simp only [Option.bind]
      rw [grab11_append hlen hall]
      rfl
    · unfold matchMarkers
      rw [show dropPref markerV (markerSlashV ++ t ++ suf) = none from rfl]
      rw [show dropPref markerBe (markerSlashV ++ t ++ suf) = none from rfl]
      rw [show dropPref markerSlashV (markerSlashV ++ t ++ suf) = some (t ++ suf) from
        dropPref_eq_some.mpr (by rw [List.append_assoc])]
      simp only [Option.bind]
      rw [grab11_append hlen hall]
      rfl

theorem searchVid_first {l : List Char} {i : Nat} {t : List Char}
    (hmatch : matchMarkers (l.drop i) = some t)
    (hnone : ∀ j, j < i → matchMarkers (l.drop j) = none) :
    searchVid l = some t := by
  induction l generalizing i with
  | nil =>
    rw [List.drop_nil] at hmatch
    exact absurd hmatch (by simp [matchMarkers, dropPref, Option.bind])
  | cons c cs ih =>
    cases i with
    | zero =>
      rw [List.drop_zero] at hmatch
      unfold searchVid
      rw [hmatch]
      rfl
    | succ i' =>
      have h0 : matchMarkers (c :: cs) = none := hnone 0 (Nat.succ_pos i')
      unfold searchVid
      rw [h0, Option.none_orElse]
      exact ih (by simpa using hmatch)
        (fun j hj => by simpa using hnone (j + 1) (Nat.succ_lt_succ hj))

theorem searchVid_some_exists {l t : List Char} (h : searchVid l = some t) :
    ∃ i, matchMarkers (l.drop i) = some t := by
  induction l with
  | nil => exact absurd h (by simp [searchVid])
  | cons c cs ih =>
    unfold searchVid at h
    rcases hh : matchMarkers (c :: cs) with _ | t'
    · rw [hh, Option.none_orElse] at h
      obtain ⟨i, hi⟩ := ih h
      exact ⟨i + 1, by simpa using hi⟩
    · rw [hh, Option.some_orElse] at h
      cases h
      exact ⟨0, by simpa using hh⟩

theorem searchVid_isSome {l : List Char} {i : Nat} {t : List Char}
    (h : matchMarkers (l.drop i) = some t) : searchVid l ≠ none := by
  induction l generalizing i with
  | nil =>
    rw [List.drop_nil] at h
    exact absurd h (by simp [matchMarkers, dropPref, Option.bind])
  | cons c cs ih =>
    cases i with
    | zero =>
      rw [List.drop_zero] at h
      unfold searchVid
      rw [h]
      simp
    | succ i' =>
      unfold searchVid
      rcases hh : matchMarkers (c :: cs) with _ | t'
      · rw [Option.none_orElse]
        exact ih (i := i') (by simpa using h)
      · simp

theorem occursInB_false_dropPref {m l : List Char} (h : occursInB m l = false) :
    ∀ i, dropPref m (l.drop i) = none := by
  induction l with
  | nil =>
    intro i
    rw [List.drop_nil]
    unfold occursInB at h
    exact Option.not_isSome_iff_eq_none.mp (by simp [h])
  | cons c cs ih =>
    intro i
    unfold occursInB at h
    rw [Bool.or_eq_false_iff] at h
    cases i with
    | zero =>
      rw [List.drop_zero]
      exact Option.not_isSome_iff_eq_none.mp (by simp [h.1])
    | succ i' =>
      rw [List.drop_succ_cons]
      exact ih h.2 i'

theorem MarkerTokenAt_iff {l : List Char} {i : Nat} {t : List Char} :
    MarkerTokenAt l i t ↔ i ≤ l.length ∧ matchMarkers (l.drop i) = some t := by
  constructor
  · rintro ⟨m, hm, pre, suf, hpre, rfl, htok⟩
    constructor
    · rw [← hpre]
      simp [List.length_append]
    · have hdrop : (pre ++ m ++ t ++ suf).drop i = m ++ t ++ suf := by
        rw [← hpre, List.append_assoc, List.append_assoc, List.drop_left,
          ← List.append_assoc]
      rw [hdrop]
      exact matchMarkers_eq_some.mpr ⟨m, hm, ⟨suf, rfl⟩, htok⟩
  · rintro ⟨hle, hmatch⟩
    obtain ⟨m, hm, ⟨suf, hsuf⟩, htok⟩ := matchMarkers_eq_some.mp hmatch
    refine ⟨m, hm, l.take i, suf, ?_, ?_, htok⟩
    · rw [List.length_take]
      omega
    · conv_lhs => rw [← List.take_append_drop i l]
      rw [hsuf]
      simp [List.append_assoc]

theorem occursInB_iff {m l : List Char} :
    occursInB m l = true ↔ ∃ pre suf, l = pre ++ m ++ suf := by
  induction l with
  | nil =>
    unfold occursInB
    cases m with
    | nil => simp [dropPref]
    | cons a as =>
      simp only [dropPref, Option.isSome_none, Bool.false_eq_true, false_iff]
      rintro ⟨pre, suf, h⟩
      exact absurd h (by simp)
  | cons c cs ih =>
    unfold occursInB
    rw [Bool.or_eq_true, Option.isSome_iff_exists, ih]
    constructor
    · rintro (⟨rest, hrest⟩ | ⟨pre, suf, rfl⟩)
      · exact ⟨[], rest, by simpa using dropPref_eq_some.mp hrest⟩
      · exact ⟨c :: pre, suf, by simp⟩
    · rintro ⟨pre, suf, heq⟩
      cases pre with
      | nil =>
        exact Or.inl ⟨suf, dropPref_eq_some.mpr (by simpa using heq)⟩
      | cons p ps =>
        right
        injection heq with h1 h2
        exact ⟨ps, suf, h2⟩

theorem searchVid_none_of_noMarker {l : List Char}
    (h : ∀ m ∈ markers, occursInB m l = false) : searchVid l = none := by
  cases hs : searchVid l with
  | none => rfl
  | some t =>
    obtain ⟨i, hi⟩ := searchVid_some_exists hs
    obtain ⟨m, hm, ⟨suf, hsuf⟩, _⟩ := matchMarkers_eq_some.mp hi
    have hocc : occursInB m l = true := by
      refine occursInB_iff.mpr ⟨l.take i, t ++ suf, ?_⟩
      conv_lhs => rw [← List.take_append_drop i l]
      rw [hsuf]
      simp [List.append_assoc]
    rw [h m hm] at hocc
    exact absurd hocc (by simp)

theorem get_video_id_of_first {s : String} {i : Nat} {t : List Char}
    (hmt : MarkerTokenAt s.data i t)
    (hfirst : ∀ j t2, j < i → ¬ MarkerTokenAt s.data j t2) :
    get_video_id s = some (String.mk t) := by
  obtain ⟨hle, hmatch⟩ := MarkerTokenAt_iff.mp hmt
  have hnone : ∀ j, j < i → matchMarkers (s.data.drop j) = none := by
    intro j hj
    cases hm2 : matchMarkers (s.data.drop j) with
    | none => rfl
    | some t2 =>
      exact absurd (MarkerTokenAt_iff.mpr ⟨Nat.le_trans (Nat.le_of_lt hj) hle, hm2⟩)
        (hfirst j t2 hj)
  unfold get_video_id
  rw [searchVid_first hmatch hnone]
  rfl

/-- C4: for every input string containing a well-formed 11-character token
(characters in `[0-9A-Za-z_-]`) preceded by one of the markers `v=`,
`youtu.be/` or `/v/`, `get_video_id` returns exactly the first such token;
for every string containing none of the three markers it returns `none`;
and every non-`none` result is exactly 11 characters drawn from the
allowed alphabet. -/
theorem get_video_id_spec (s : String) :
    (∀ i t, MarkerTokenAt s.data i t →
        (∀ j t2, j < i → ¬ MarkerTokenAt s.data j t2) →
        get_video_id s = some (String.mk t)) ∧
    ((∀ m ∈ markers, occursInB m s.data = false) → get_video_id s = none) ∧
    (∀ r, get_video_id s = some r →
        r.data.length = 11 ∧ ∀ c ∈ r.data, isIdChar c = true) := by
  refine ⟨fun i t hmt hfirst => get_video_id_of_first hmt hfirst, ?_, ?_⟩
  · intro h
    unfold get_video_id
    rw [searchVid_none_of_noMarker h]
    rfl
  · intro r hr
    unfold get_video_id at hr
    cases hs : searchVid s.data with
    | none =>
      rw [hs] at hr
      exact absurd hr (by simp)
    | some t =>
      rw [hs] at hr
      simp only [Option.map_some'] at hr
      obtain ⟨i, hi⟩ := searchVid_some_exists hs
      obtain ⟨_, _, _, htok⟩ := matchMarkers_eq_some.mp hi
      cases hr
      exact htok

/-- Witness for C4 at concrete inputs: `v=dQw4w9WgXcQ` parses to its
11-character token, and a marker-free string parses to `none`. -/
theorem get_video_id_spec_witness :
    get_video_id "v=dQw4w9WgXcQ" = some "dQw4w9WgXcQ" ∧
    get_video_id "not a url" = none := by
  constructor
  · exact (get_video_id_spec "v=dQw4w9WgXcQ").1 0 "dQw4w9WgXcQ".data
      (MarkerTokenAt_iff.mpr ⟨Nat.zero_le _, by decide⟩)
      (fun j t2 hj => absurd hj (Nat.not_lt_zero j))
  · exact (get_video_id_spec "not a url").2.1 (by decide)

/-- C10: when a marker is followed by a run of more than 11 allowed
characters (and no earlier marker-token match exists), `get_video_id` does
not return `none`: it returns the first 11 characters of the run,
truncating the longer run. -/
theorem get_video_id_truncates_long_run (s : String) (i : Nat) (r : List Char)
    (hrun : MarkerRunAt s.data i r) (hlen : 11 < r.length)
    (hfirst : ∀ j t2, j < i → ¬ MarkerTokenAt s.data j t2) :
    get_video_id s ≠ none ∧ get_video_id s = some (String.mk (r.take 11)) := by
  obtain ⟨m, hm, pre, suf, hpre, heq, hall⟩ := hrun
  have htok : IsToken (r.take 11) := by
    constructor
    · rw [List.length_take]
      omega
    · intro c hc
      exact hall c (List.take_subset 11 r hc)
  have hmt : MarkerTokenAt s.data i (r.take 11) := by
    refine ⟨m, hm, pre, r.drop 11 ++ suf, hpre, ?_, htok⟩
    rw [heq]
    simp only [List.append_assoc]
    rw [← List.append_assoc (r.take 11), List.take_append_drop]
  have hres := get_video_id_of_first hmt hfirst
  exact ⟨by rw [hres]; simp, hres⟩

/-- Witness for C10: after `v=` come 13 allowed characters; the result is
the first 11 of them. -/
theorem get_video_id_truncates_long_run_witness :
    get_video_id "v=abcdefghijklm" ≠ none ∧
    get_video_id "v=abcdefghijklm" = some (String.mk ("abcdefghijklm".data.take 11)) :=
  get_video_id_truncates_long_run "v=abcdefghijklm" 0 "abcdefghijklm".data
    ⟨markerV, by decide, [], [], rfl, by decide, by decide⟩
    (by decide)
    (fun j t2 hj => absurd hj (Nat.not_lt_zero j))

/-- A transcript segment as consumed by line 60 of src/yt_app.py: either a
dict carrying a `text` entry, or an object whose `text` attribute is read
with `getattr(s, "text", "")`. -/
inductive Segment where
  | dict (text : String)
  | obj (text : Option String)
deriving DecidableEq

/-- `s["text"] if isinstance(s, dict) else getattr(s, "text", "")`. -/
def segText : Segment → String
  | .dict t => t
  | .obj t => t.getD ""

/-- Failure classes the external transcript collaborator can raise. -/
inductive CollabErr where
  | noTranscriptFound (msg : String)
  | transcriptsDisabled (msg : String)
  | other (msg : String)
deriving DecidableEq

/-- The typed outcomes `fetch_transcript_text` signals to its caller. -/
inductive FetchErr where
  | noTranscriptFound (msg : String)
  | transcriptsDisabled (msg : String)
  | unknownError (msg : String)
deriving DecidableEq

/-- Python's `" ".join(texts)`. -/
def joinSpace : List String → String
  | [] => ""
  | [t] => t
  | t :: u :: rest => t ++ " " ++ joinSpace (u :: rest)

/-- `fetch_transcript_text` (src/yt_app.py lines 56-67), the external
library call represented by its outcome: on success the segment texts are
joined with single spaces in source order; each failure class is re-raised
as its own typed outcome, the catch-all wrapping the cause description. -/
def fetch_transcript_text (collab : Except CollabErr (List Segment)) :
    Except FetchErr String :=
  match collab with
  | .ok segs => .ok (joinSpace (segs.map segText))
  | .error (.noTranscriptFound _) =>
      .error (.noTranscriptFound "No transcript found for this video.")
  | .error (.transcriptsDisabled _) =>
      .error (.transcriptsDisabled "Transcripts are disabled for this video.")
  | .error (.other m) =>
      .error (.unknownError ("An unexpected error occurred: " ++ m))

theorem intercalate_go_eq (as : List String) (acc : String) :
    String.intercalate.go acc " " as = joinSpace (acc :: as) := by
  induction as generalizing acc with
  | nil => rfl
  | cons a as ih =>
    rw [show String.intercalate.go acc " " (a :: as) =
      String.intercalate.go (acc ++ " " ++ a) " " as from rfl, ih]
    cases as with
    | nil => rfl
    | cons b bs =>
      show acc ++ " " ++ a ++ " " ++ joinSpace (b :: bs) =
        acc ++ " " ++ (a ++ " " ++ joinSpace (b :: bs))
      rw [String.append_assoc, String.append_assoc, String.append_assoc a]

theorem joinSpace_eq_intercalate (ts : List String) :
    joinSpace ts = String.intercalate " " ts := by
  cases ts with
  | nil => rfl
  | cons a as =>
    rw [show String.intercalate " " (a :: as) = String.intercalate.go a " " as
      from rfl, intercalate_go_eq]

/-- C5: for every segment list returned by the collaborator,
`fetch_transcript_text` yields exactly the segments' text fields joined
with a single space separator, preserving source order and with no
deduplication; in particular segments `Hello`, `world` yield
`"Hello world"`. -/
theorem fetch_transcript_join :
    (∀ segs : List Segment, fetch_transcript_text (Except.ok segs) =
      Except.ok (String.intercalate " " (segs.map segText))) ∧
    fetch_transcript_text (Except.ok [Segment.dict "Hello", Segment.dict "world"]) =
      Except.ok "Hello world" := by
  constructor
  · intro segs
    show Except.ok (joinSpace (segs.map segText)) = _
    rw [joinSpace_eq_intercalate]
  · rfl

/-- C3: the three transcript-fetch failure classes are signalled by
`fetch_transcript_text` as three pairwise-distinct typed outcomes, so the
caller can distinguish them; the unknown-error outcome wraps the
underlying cause description. -/
theorem fetch_errors_distinct (m1 m2 m3 : String) :
    fetch_transcript_text (Except.error (CollabErr.noTranscriptFound m1)) =
      Except.error (FetchErr.noTranscriptFound "No transcript found for this video.") ∧
    fetch_transcript_text (Except.error (CollabErr.transcriptsDisabled m2)) =
      Except.error (FetchErr.transcriptsDisabled "Transcripts are disabled for this video.") ∧
    fetch_transcript_text (Except.error (CollabErr.other m3)) =
      Except.error (FetchErr.unknownError ("An unexpected error occurred: " ++ m3)) ∧
    (∀ a b : String, FetchErr.noTranscriptFound a ≠ FetchErr.transcriptsDisabled b) ∧
    (∀ a b : String, FetchErr.noTranscriptFound a ≠ FetchErr.unknownError b) ∧
    (∀ a b : String, FetchErr.transcriptsDisabled a ≠ FetchErr.unknownError b) :=
  ⟨rfl, rfl, rfl,
    fun _ _ h => FetchErr.noConfusion h,
    fun _ _ h => FetchErr.noConfusion h,
    fun _ _ h => FetchErr.noConfusion h⟩

/-- Witness for C3: concrete evaluation of the catch-all outcome, which
wraps the cause description. -/
theorem fetch_errors_distinct_witness :
    fetch_transcript_text (Except.error (CollabErr.other "net down")) =
      Except.error (FetchErr.unknownError "An unexpected error occurred: net down") :=
  (fetch_errors_distinct "a" "b" "net down").2.2.1

/-- The two recognized Session State keys (`st.session_state`). -/
structure SessionState where
  transcript : Option String
  summary : Option String
deriving DecidableEq

/-- The state a fresh session starts in: both keys unset. -/
def emptyState : SessionState := ⟨none, none⟩

/-- Inputs to one top-to-bottom run of the Streamlit script: whether the
button reported a click, the text-field content, and the two external
collaborators (transcript library keyed by video id, and the completion
service) represented as oracle functions. -/
structure RunInput where
  buttonClicked : Bool
  url : String
  collab : String → Except CollabErr (List Segment)
  summarizer : String → Except String String

/-- `st.error` message for a missing video id (line 89). -/
def invalidUrlMsg : String := "❌ Invalid YouTube URL."

/-- `st.error` message shared by the two caption-failure classes (line 96). -/
def noTranscriptMsg : String := "❌ No transcript found (captions disabled or missing)."

/-- Leading text of the catch-all `st.error` message (line 98). -/
def errMsgHead : String := "⚠️ Error: "

/-- Lines 92-98: how the module-level handler reacts to the outcome of
`fetch_transcript_text` — storing the transcript on success, emitting one
message for the two caption-failure classes, and the wrapped description
otherwise. -/
def handleFetch (s : SessionState) : Except FetchErr String →
    SessionState × List String
  | .ok t => ({ s with transcript := some t }, [])
  | .error (.noTranscriptFound _) => (s, [noTranscriptMsg])
  | .error (.transcriptsDisabled _) => (s, [noTranscriptMsg])
  | .error (.unknownError m) => (s, [errMsgHead ++ m])

/-- Lines 86-98: branch on the parsed video id. -/
def handleVid (s : SessionState) (inp : RunInput) :
    Option String → SessionState × List String
  | none => (s, [invalidUrlMsg])
  | some vid => handleFetch s (fetch_transcript_text (inp.collab vid))

/-- Lines 85-98: the submit handler runs only when the button was clicked
and the URL field is non-empty. -/
def fetchPhase (s : SessionState) (inp : RunInput) :
    SessionState × List String :=
  if inp.buttonClicked = true ∧ inp.url ≠ "" then
    handleVid s inp (get_video_id inp.url)
  else (s, [])

/-- Lines 100-105: whenever the transcript key is present the script calls
the summarizer; a raised error is uncaught, aborting the run (`true` in
the third component); the pair also counts summarizer invocations. -/
def summarizeStep (s : SessionState) (f : String → Except String String) :
    Option String → SessionState × Nat × Bool
  | none => (s, 0, false)
  | some t =>
    match f t with
    | .ok sm => ({ s with summary := some sm }, 1, false)
    | .error _ => (s, 1, true)

/-- The summarize block applied to the current transcript key. -/
def summarizePhase (s : SessionState) (f : String → Except String String) :
    SessionState × Nat × Bool :=
  summarizeStep s f s.transcript

/-- One offered download: the content handed to `st.download_button`, the
file name, and the widget key. -/
structure Artifact where
  content : String
  filename : String
  key : String
deriving DecidableEq

/-- Lines 108-129: the tab block renders only when both keys are present. -/
def tabArtifacts (s : SessionState) : List Artifact :=
  if s.summary.isSome = true ∧ s.transcript.isSome = true then
    [⟨s.summary.getD "", "summary.txt", "download_summary_tab"⟩,
     ⟨s.transcript.getD "", "transcript.txt", "download_transcript_tab"⟩]
  else []

/-- Lines 107-149: the render stage.  The expander block (lines 131-149)
runs whenever the transcript is present and reads the summary key
unconditionally, so a present transcript with an absent summary raises a
`KeyError`. -/
def render (s : SessionState) : Except String (List Artifact) :=
  match s.transcript, s.summary with
  | none, _ => .ok (tabArtifacts s)
  | some _, none => .error "KeyError: summary"
  | some t, some sm =>
      .ok (tabArtifacts s ++
        [⟨t, "transcript.txt", "download_transcript_expander"⟩,
         ⟨sm, "summary.txt", "download_summary_expander"⟩])

/-- Outcome of one script run: final session state, emitted error
messages, number of summarizer invocations, whether an exception escaped
(aborting the run before rendering), and the offered downloads. -/
structure RunResult where
  state : SessionState
  errors : List String
  summarizeCalls : Nat
  raised : Bool
  artifacts : List Artifact
deriving DecidableEq

/-- Assemble the run outcome from the summarize-phase result: an uncaught
summarizer error (or a render error) aborts with nothing rendered. -/
def runRender (errs : List String) :
    SessionState × Nat × Bool → RunResult
  | (s2, n, true) => ⟨s2, errs, n, true, []⟩
  | (s2, n, false) =>
    match render s2 with
    | .ok arts => ⟨s2, errs, n, false, arts⟩
    | .error _ => ⟨s2, errs, n, true, []⟩

/-- One top-to-bottom execution of src/yt_app.py (lines 83-149) from a
given session state: fetch handler, then the summarize block, then the
render stage. -/
def runScript (s : SessionState) (inp : RunInput) : RunResult :=
  runRender (fetchPhase s inp).2
    (summarizePhase (fetchPhase s inp).1 inp.summarizer)

/-- Session states reachable from a fresh session by script runs. -/
inductive Reachable : SessionState → Prop where
  | init : Reachable emptyState
  | step (s : SessionState) (inp : RunInput) :
      Reachable s → Reachable (runScript s inp).state

theorem handleVid_some {s : SessionState} {inp : RunInput} {vid : String} :
    handleVid s inp (some vid) =
      handleFetch s (fetch_transcript_text (inp.collab vid)) := rfl

theorem fetchPhase_noClick (s : SessionState) (inp : RunInput)
    (h : inp.buttonClicked = false) : fetchPhase s inp = (s, []) := by
  unfold fetchPhase
  rw [if_neg (by simp [h])]

theorem fetchPhase_submit {s : SessionState} {inp : RunInput} {vid : String}
    (hb : inp.buttonClicked = true) (hv : get_video_id inp.url = some vid) :
    fetchPhase s inp = handleFetch s (fetch_transcript_text (inp.collab vid)) := by
  have hurl : ¬ inp.url = "" := by
    intro h0
    rw [h0, show get_video_id "" = none from rfl] at hv
    exact Option.noConfusion hv
  unfold fetchPhase
  rw [if_pos ⟨hb, hurl⟩, hv, handleVid_some]

theorem handleFetch_summary (s : SessionState) (r : Except FetchErr String) :
    (handleFetch s r).1.summary = s.summary := by
  cases r with
  | ok t => rfl
  | error e => cases e <;> rfl

theorem handleFetch_transcript_mono (s : SessionState) (r : Except FetchErr String)
    (h : s.transcript.isSome = true) : (handleFetch s r).1.transcript.isSome = true := by
  cases r with
  | ok t => rfl
  | error e => cases e <;> exact h

theorem fetchPhase_summary (s : SessionState) (inp : RunInput) :
    (fetchPhase s inp).1.summary = s.summary := by
  unfold fetchPhase
  split
  · cases hv : get_video_id inp.url with
    | none => rfl
    | some vid => rw [handleVid_some, handleFetch_summary]
  · rfl

theorem fetchPhase_transcript_mono (s : SessionState) (inp : RunInput)
    (h : s.transcript.isSome = true) :
    (fetchPhase s inp).1.transcript.isSome = true := by
  unfold fetchPhase
  split
  · cases hv : get_video_id inp.url with
    | none => exact h
    | some vid => rw [handleVid_some]; exact handleFetch_transcript_mono _ _ h
  · exact h

theorem summarizePhase_none {s : SessionState}
    {f : String → Except String String} (h : s.transcript = none) :
    summarizePhase s f = (s, 0, false) := by
  obtain ⟨ot, os⟩ := s
  have h2 : ot = none := h
  subst h2
  rfl

theorem summarizePhase_some_ok {s : SessionState} {t sm : String}
    {f : String → Except String String}
    (h : s.transcript = some t) (hf : f t = Except.ok sm) :
    summarizePhase s f = ({ s with summary := some sm }, 1, false) := by
  obtain ⟨ot, os⟩ := s
  have h2 : ot = some t := h
  subst h2
  show summarizeStep ⟨some t, os⟩ f (some t) = _
  simp only [summarizeStep]
  rw [hf]

theorem summarizePhase_some_err {s : SessionState} {t e : String}
    {f : String → Except String String}
    (h : s.transcript = some t) (hf : f t = Except.error e) :
    summarizePhase s f = (s, 1, true) := by
  obtain ⟨ot, os⟩ := s
  have h2 : ot = some t := h
  subst h2
  show summarizeStep ⟨some t, os⟩ f (some t) = _
  simp only [summarizeStep]
  rw [hf]

theorem summarizePhase_calls (s : SessionState)
    (f : String → Except String String) :
    (summarizePhase s f).2.1 = if s.transcript.isSome = true then 1 else 0 := by
  cases ht : s.transcript with
  | none => simp [summarizePhase_none ht]
  | some t =>
    cases hf : f t with
    | ok sm => simp [summarizePhase_some_ok ht hf]
    | error e => simp [summarizePhase_some_err ht hf]

theorem summarizePhase_preserves (s : SessionState)
    (f : String → Except String String)
    (hinv : s.summary.isSome = true → s.transcript.isSome = true) :
    (summarizePhase s f).1.summary.isSome = true →
      (summarizePhase s f).1.transcript.isSome = true := by
  cases ht : s.transcript with
  | none => rw [summarizePhase_none ht]; exact hinv
  | some t =>
    cases hf : f t with
    | ok sm =>
      rw [summarizePhase_some_ok ht hf]
      intro _
      show s.transcript.isSome = true
      simp [ht]
    | error e =>
      rw [summarizePhase_some_err ht hf]
      intro _
      show s.transcript.isSome = true
      simp [ht]

theorem runRender_raised (errs : List String) (s2 : SessionState) (n : Nat) :
    runRender errs (s2, n, true) = ⟨s2, errs, n, true, []⟩ := rfl

theorem runRender_ok {errs : List String} {s2 : SessionState} {n : Nat}
    {arts : List Artifact} (h : render s2 = Except.ok arts) :
    runRender errs (s2, n, false) = ⟨s2, errs, n, false, arts⟩ := by
  simp only [runRender]
  rw [h]

theorem runRender_err {errs : List String} {s2 : SessionState} {n : Nat}
    {msg : String} (h : render s2 = Except.error msg) :
    runRender errs (s2, n, false) = ⟨s2, errs, n, true, []⟩ := by
  simp only [runRender]
  rw [h]

theorem runRender_state (errs : List String) (sp : SessionState × Nat × Bool) :
    (runRender errs sp).state = sp.1 := by
  obtain ⟨s2, n, b⟩ := sp
  cases b with
  | true => rfl
  | false =>
    cases hr : render s2 with
    | ok arts => rw [runRender_ok hr]
    | error m => rw [runRender_err hr]

theorem runRender_calls (errs : List String) (sp : SessionState × Nat × Bool) :
    (runRender errs sp).summarizeCalls = sp.2.1 := by
  obtain ⟨s2, n, b⟩ := sp
  cases b with
  | true => rfl
  | false =>
    cases hr : render s2 with
    | ok arts => rw [runRender_ok hr]
    | error m => rw [runRender_err hr]

theorem runScript_state (s : SessionState) (inp : RunInput) :
    (runScript s inp).state =
      (summarizePhase (fetchPhase s inp).1 inp.summarizer).1 := by
  unfold runScript
  rw [runRender_state]

theorem runScript_calls (s : SessionState) (inp : RunInput) :
    (runScript s inp).summarizeCalls =
      (summarizePhase (fetchPhase s inp).1 inp.summarizer).2.1 := by
  unfold runScript
  rw [runRender_calls]

/-- Transcript collaborator stub returning two segments. -/
def okCollab : String → Except CollabErr (List Segment) :=
  fun _ => Except.ok [Segment.dict "Hello", Segment.dict "world"]

/-- Transcript collaborator stub raising "captions disabled". -/
def disabledCollab : String → Except CollabErr (List Segment) :=
  fun _ => Except.error (CollabErr.transcriptsDisabled "disabled")

/-- Summarizer stub that succeeds. -/
def okSummarizer : String → Except String String :=
  fun t => Except.ok ("SUMMARY: " ++ t)

/-- Summarizer stub that raises. -/
def failingSummarizer : String → Except String String :=
  fun _ => Except.error "boom"

/-- A pure re-render: no button click, collaborators idle. -/
def rerenderInput : RunInput := ⟨false, "", okCollab, okSummarizer⟩

/-- A submission whose fetch and summarization both succeed. -/
def goodInput : RunInput := ⟨true, "v=dQw4w9WgXcQ", okCollab, okSummarizer⟩

/-- A submission whose fetch succeeds but whose summarizer raises. -/
def failSummInput : RunInput := ⟨true, "v=dQw4w9WgXcQ", okCollab, failingSummarizer⟩

/-- A submission whose fetch raises "captions disabled". -/
def failFetchInput : RunInput := ⟨true, "v=dQw4w9WgXcQ", disabledCollab, okSummarizer⟩

/-- A session state left over from an earlier successful submission. -/
def staleState : SessionState := ⟨some "OLD", some "OLDSUM"⟩

/-- A session state holding only a transcript. -/
def readyState : SessionState := ⟨some "T", none⟩

/-- A session state holding a transcript and a summary. -/
def fullState : SessionState := ⟨some "T", some "S"⟩

/-- C1 counterexample: a pure re-render (no button click, hence no fetch)
with a transcript present still invokes the summarizer once, so the
summarizer is not invoked exactly once per successful fetch. -/
theorem summarize_reinvoked_on_rerender_cex :
    rerenderInput.buttonClicked = false ∧
    (runScript staleState rerenderInput).summarizeCalls = 1 := by
  constructor
  · rfl
  · rfl

/-- C1 (amended): the summarizer is invoked exactly once in every script
run whose post-fetch session state holds a transcript, and never
otherwise — in particular it is re-invoked by every re-render while a
transcript is present, not only once per successful fetch. -/
theorem summarize_once_per_run (s : SessionState) (inp : RunInput) :
    ((runScript s inp).summarizeCalls =
      if (fetchPhase s inp).1.transcript.isSome = true then 1 else 0) ∧
    (inp.buttonClicked = false → s.transcript.isSome = true →
      (runScript s inp).summarizeCalls = 1) := by
  constructor
  · rw [runScript_calls, summarizePhase_calls]
  · intro hb ht
    rw [runScript_calls, summarizePhase_calls, fetchPhase_noClick s inp hb]
    simp [ht]

/-- Witness for C1 (amended): re-rendering with only a transcript present
invokes the summarizer once. -/
theorem summarize_once_per_run_witness :
    (runScript readyState rerenderInput).summarizeCalls = 1 :=
  (summarize_once_per_run readyState rerenderInput).2 rfl rfl

/-- C2 counterexample: with a successful fetch and a raising summarizer,
the run ends with the exception escaped (`raised = true`) and no rendered
artifacts at all — the error is not converted at the boundary and the
transcript is not offered for display or download on that run. -/
theorem summarizer_error_propagates_cex :
    (runScript emptyState failSummInput).raised = true ∧
    (runScript emptyState failSummInput).artifacts = [] := by
  constructor
  · rfl
  · rfl

/-- C2 (amended): a summarization error is not caught at the summarizer
boundary: it escapes and aborts the script run before rendering.  Session
state is left with the fetched transcript set and (with no prior summary)
the summary key unset, but nothing is rendered on that run, so the
transcript is not displayable or downloadable there. -/
theorem summarizer_error_uncaught (s : SessionState) (inp : RunInput)
    (hs : s.summary = none) (hb : inp.buttonClicked = true)
    (vid : String) (hv : get_video_id inp.url = some vid)
    (segs : List Segment) (hc : inp.collab vid = Except.ok segs)
    (e : String) (hf : ∀ u, inp.summarizer u = Except.error e) :
    (runScript s inp).state.transcript = some (joinSpace (segs.map segText)) ∧
    (runScript s inp).state.summary = none ∧
    (runScript s inp).raised = true ∧
    (runScript s inp).artifacts = [] := by
  have hfp : fetchPhase s inp =
      ({ s with transcript := some (joinSpace (segs.map segText)) }, []) := by
    rw [fetchPhase_submit hb hv, hc]
    rfl
  have hsp : summarizePhase (fetchPhase s inp).1 inp.summarizer =
      ((fetchPhase s inp).1, 1, true) := by
    rw [hfp]
    exact summarizePhase_some_err rfl (hf (joinSpace (segs.map segText)))
  have hrun : runScript s inp =
      ⟨{ s with transcript := some (joinSpace (segs.map segText)) }, [], 1, true, []⟩ := by
    unfold runScript
    rw [hsp, hfp, runRender_raised]
  rw [hrun]
  exact ⟨rfl, hs, rfl, rfl⟩

/-- Witness for C2 (amended): concrete run with the raising summarizer
stub. -/
theorem summarizer_error_uncaught_witness :
    (runScript emptyState failSummInput).state.transcript =
      some (joinSpace ([Segment.dict "Hello", Segment.dict "world"].map segText)) ∧
    (runScript emptyState failSummInput).state.summary = none ∧
    (runScript emptyState failSummInput).raised = true ∧
    (runScript emptyState failSummInput).artifacts = [] :=
  summarizer_error_uncaught emptyState failSummInput rfl rfl
    "dQw4w9WgXcQ" (by decide) [Segment.dict "Hello", Segment.dict "world"] rfl
    "boom" (fun _ => rfl)

/-- C6 counterexample: a new submission whose fetch fails leaves the stale
transcript from the earlier submission in place — session state is not
reset to empty before the re-attempt. -/
theorem stale_transcript_after_failed_fetch_cex :
    (runScript staleState failFetchInput).errors = [noTranscriptMsg] ∧
    (runScript staleState failFetchInput).state.transcript = some "OLD" := by
  constructor
  · rfl
  · rfl

/-- C6 (amended): a new URL submission does not discard prior session
state: the fetch handler never clears the keys, so when the fetch fails
the prior transcript and summary are retained unchanged (the transcript is
replaced only on a fetch success). -/
theorem fetch_failure_preserves_state (s : SessionState) (inp : RunInput)
    (hb : inp.buttonClicked = true) (vid : String)
    (hv : get_video_id inp.url = some vid)
    (e : CollabErr) (hc : inp.collab vid = Except.error e) :
    (fetchPhase s inp).1 = s := by
  rw [fetchPhase_submit hb hv, hc]
  cases e <;> rfl

/-- Witness for C6 (amended): the stale state survives the failed fetch. -/
theorem fetch_failure_preserves_state_witness :
    (fetchPhase staleState failFetchInput).1 = staleState :=
  fetch_failure_preserves_state staleState failFetchInput rfl
    "dQw4w9WgXcQ" (by decide) (CollabErr.transcriptsDisabled "disabled") rfl

/-- C7: a fetch failure (captions disabled) starting from the empty
session surfaces the error message and leaves the transcript key unset. -/
theorem fetch_failure_from_empty (inp : RunInput)
    (hb : inp.buttonClicked = true) (vid : String)
    (hv : get_video_id inp.url = some vid) (m : String)
    (hc : inp.collab vid = Except.error (CollabErr.transcriptsDisabled m)) :
    (runScript emptyState inp).errors = [noTranscriptMsg] ∧
    (runScript emptyState inp).state.transcript = none := by
  have hfp : fetchPhase emptyState inp = (emptyState, [noTranscriptMsg]) := by
    rw [fetchPhase_submit hb hv, hc]
    rfl
  have hrun : runScript emptyState inp =
      ⟨emptyState, [noTranscriptMsg], 0, false, []⟩ := by
    unfold runScript
    rw [hfp]
    rfl
  rw [hrun]
  exact ⟨rfl, rfl⟩

/-- Witness for C7: concrete run with the disabled-captions stub. -/
theorem fetch_failure_from_empty_witness :
    (runScript emptyState failFetchInput).errors = [noTranscriptMsg] ∧
    (runScript emptyState failFetchInput).state.transcript = none :=
  fetch_failure_from_empty failFetchInput rfl "dQw4w9WgXcQ" (by decide)
    "disabled" rfl

/-- C8: in every reachable session state the summary key is present only
if the transcript key is present — a summary is only ever generated while
a transcript exists, and the transcript is never removed afterwards. -/
theorem summary_requires_transcript (s : SessionState) (h : Reachable s) :
    s.summary.isSome = true → s.transcript.isSome = true := by
  induction h with
  | init =>
    intro hs
    exact absurd hs (by simp [emptyState])
  | step s0 inp hr ih =>
    intro hs
    rw [runScript_state] at hs ⊢
    refine summarizePhase_preserves _ _ ?_ hs
    intro h1
    rw [fetchPhase_summary] at h1
    exact fetchPhase_transcript_mono _ _ (ih h1)

/-- Witness for C8: the state reached by one successful submission has a
summary, hence a transcript. -/
theorem summary_requires_transcript_witness :
    (runScript emptyState goodInput).state.transcript.isSome = true :=
  summary_requires_transcript (runScript emptyState goodInput).state
    (Reachable.step emptyState goodInput Reachable.init) (by decide)

theorem render_full (t sm : String) :
    render ⟨some t, some sm⟩ = Except.ok
      [⟨sm, "summary.txt", "download_summary_tab"⟩,
       ⟨t, "transcript.txt", "download_transcript_tab"⟩,
       ⟨t, "transcript.txt", "download_transcript_expander"⟩,
       ⟨sm, "summary.txt", "download_summary_expander"⟩] := rfl

/-- C9: whenever rendering succeeds, every artifact offered under
`transcript.txt` carries byte-for-byte the string stored under the
transcript key at that moment, and every `summary.txt` artifact the
summary key value. -/
theorem download_content_matches_state (s : SessionState)
    (arts : List Artifact) (h : render s = Except.ok arts) :
    ∀ a ∈ arts,
      (a.filename = "transcript.txt" → s.transcript = some a.content) ∧
      (a.filename = "summary.txt" → s.summary = some a.content) := by
  obtain ⟨ot, os⟩ := s
  cases ot with
  | none =>
    have harts : arts = [] := by
      cases os with
      | none =>
        rw [show render ⟨none, none⟩ = Except.ok [] from rfl] at h
        injection h with h2
        exact h2.symm
      | some sm =>
        rw [show render ⟨none, some sm⟩ = Except.ok [] from rfl] at h
        injection h with h2
        exact h2.symm
    subst harts
    intro a ha
    exact absurd ha (List.not_mem_nil a)
  | some t =>
    cases os with
    | none =>
      rw [show render ⟨some t, none⟩ = Except.error "KeyError: summary" from rfl] at h
      exact absurd h (by simp)
    | some sm =>
      rw [render_full t sm] at h
      injection h with h2
      subst h2
      intro a ha
      simp only [List.mem_cons, List.not_mem_nil, or_false] at ha
      rcases ha with rfl | rfl | rfl | rfl
      all_goals constructor
      all_goals intro hf
      all_goals first
        | rfl
        | exact absurd hf (by simp)

/-- Witness for C9: the artifacts rendered from a full state carry exactly
the stored transcript and summary values. -/
theorem download_content_matches_state_witness :
    fullState.transcript = some "T" ∧ fullState.summary = some "S" := by
  constructor
  · exact ((download_content_matches_state fullState
      [⟨"S", "summary.txt", "download_summary_tab"⟩,
       ⟨"T", "transcript.txt", "download_transcript_tab"⟩,
       ⟨"T", "transcript.txt", "download_transcript_expander"⟩,
       ⟨"S", "summary.txt", "download_summary_expander"⟩] rfl)
      ⟨"T", "transcript.txt", "download_transcript_tab"⟩ (by decide)).1 rfl
  · exact ((download_content_matches_state fullState
      [⟨"S", "summary.txt", "download_summary_tab"⟩,
       ⟨"T", "transcript.txt", "download_transcript_tab"⟩,
       ⟨"T", "transcript.txt", "download_transcript_expander"⟩,
       ⟨"S", "summary.txt", "download_summary_expander"⟩] rfl)
      ⟨"S", "summary.txt", "download_summary_tab"⟩ (by decide)).2 rfl
